import Mathlib

/-!
Verification of the Living Documentation Framework confidence scoring core.

The definitions below are a shallow embedding of the two scoring
implementations of the repository:

* `src/tools/confidence_engine.py` — the canonical engine
  (`FormulaConfig`, `ConfidenceCalculator._load_config`,
  `ConfidenceCalculator.calculate`);
* `src/tools/calculate_confidence.py` — the legacy calculator
  (`calculate_confidence`, constants `K` and `EMA_WEIGHT`).

Python floats are modelled as real numbers; configuration constants and the
purely rational intermediate quantities are modelled as rationals and cast
into `ℝ` where the source mixes them into transcendental formulas.
Python's `round` (banker's rounding, round-half-to-even) is modelled
exactly by `pyRound` / `pyRoundQ`.
-/

/-- `FormulaConfig` from `confidence_engine.py` (field defaults are in
`defaultConfig`).  All numeric fields are Python floats holding the
decimal constants of the source; they are modelled as rationals. -/
structure FormulaConfig where
  K : ℚ
  p0_max : ℚ
  p0_k : ℚ
  p1_max : ℚ
  p1_k : ℚ
  p2_max : ℚ
  p2_k : ℚ
  p3_max : ℚ
  p3_k : ℚ
  cap_severity : ℚ
  cap_doc : ℚ
  cap_staleness : ℚ
  cap_tier_a : ℚ
  cap_test : ℚ
  cap_resolution : ℚ
  cap_hotspot : ℚ
  cap_recurrence : ℚ
  doc_target : ℚ
  fix_target : ℚ
  test_target : ℚ
  alpha : ℚ
  beta : ℚ
  fix_ratio_bonus_enabled : Bool
  fix_ratio_bonus_threshold : ℚ
  fix_ratio_bonus_max : ℚ
  investigating_discount : ℚ
  deriving DecidableEq

/-- The built-in defaults of `FormulaConfig` in `confidence_engine.py`. -/
def defaultConfig : FormulaConfig where
  K := 50
  p0_max := 15
  p0_k := 1
  p1_max := 10
  p1_k := 3
  p2_max := 5
  p2_k := 6
  p3_max := 3/2
  p3_k := 25
  cap_severity := 35
  cap_doc := 10
  cap_staleness := 10
  cap_tier_a := 8
  cap_test := 3
  cap_resolution := 6
  cap_hotspot := 6
  cap_recurrence := 4
  doc_target := 9/10
  fix_target := 7/10
  test_target := 3/10
  alpha := 3
  beta := 2
  fix_ratio_bonus_enabled := true
  fix_ratio_bonus_threshold := 9/10
  fix_ratio_bonus_max := 10
  investigating_discount := 1/2

/-- Per-tier `{open, found, fixed}` counts (`aggregates["severity"][tier]`).
The source key `open` is a Lean keyword, hence the field name `openCount`. -/
structure TierCounts where
  openCount : ℕ
  found : ℕ
  fixed : ℕ

/-- `aggregates["severity"]`. -/
structure SeverityCounts where
  critical : TierCounts
  high : TierCounts
  medium : TierCounts
  low : TierCounts

/-- `aggregates["summary"]`. -/
structure SummaryCounts where
  total_found : ℕ
  total_fixed : ℕ

/-- The `aggregates` input of `ConfidenceCalculator.calculate`. -/
structure Aggregates where
  severity : SeverityCounts
  summary : SummaryCounts

/-- The `stats` input (`mapped`, `scripts`, `tests_count`). -/
structure Stats where
  mapped : ℕ
  scripts : ℕ
  tests_count : ℕ

/-- Hotspot risk level; the source uses the strings "low"/"medium"/"high". -/
inductive Risk where
  | low
  | medium
  | high
  deriving DecidableEq

/-- One entry of `fingerprints["hotspots"]`. -/
structure Hotspot where
  risk : Risk
  bug_recurrence : ℚ

/-- The optional `fingerprints` input; `none` models a missing dict or a
dict without the "hotspots" key. -/
structure Fingerprints where
  hotspots : List Hotspot

/-- Python `round(x)` on a real value: round half to even. -/
noncomputable def pyRound (x : ℝ) : ℤ :=
  open Classical in
  let f := ⌊x⌋
  if x - f < 1/2 then f
  else if (1:ℝ)/2 < x - f then f + 1
  else if f % 2 = 0 then f else f + 1

/-- Python `round(x)` on a rational value (computable variant). -/
def pyRoundQ (x : ℚ) : ℤ :=
  let f := ⌊x⌋
  if x - f < 1/2 then f
  else if (1:ℚ)/2 < x - f then f + 1
  else if f % 2 = 0 then f else f + 1

/-- Python `round(x, 1)`. -/
noncomputable def round1 (x : ℝ) : ℝ := (pyRound (x * 10) : ℤ) / 10

/-- Python `round(x, 2)`. -/
noncomputable def round2 (x : ℝ) : ℝ := (pyRound (x * 100) : ℤ) / 100

/-- Python `round(x, 1)` on rationals. -/
def qround1 (x : ℚ) : ℚ := (pyRoundQ (x * 10) : ℤ) / 10

/-- Python `round(x, 3)` on rationals. -/
def qround3 (x : ℚ) : ℚ := (pyRoundQ (x * 1000) : ℤ) / 1000

/-- Python `math.log1p`. -/
noncomputable def log1p (x : ℝ) : ℝ := Real.log (1 + x)

/-- One saturating severity term `max_t * (1 - exp(-open_t / k_t))`
(`confidence_engine.py`, step 1). -/
noncomputable def tierPenalty (mx k : ℚ) (opened : ℕ) : ℝ :=
  (mx : ℝ) * (1 - Real.exp (-(opened : ℝ) / (k : ℝ)))

/-- `severity_penalty`: the four tier terms summed and capped. -/
noncomputable def severity_penalty (cfg : FormulaConfig) (sev : SeverityCounts) : ℝ :=
  min (tierPenalty cfg.p0_max cfg.p0_k sev.critical.openCount
      + tierPenalty cfg.p1_max cfg.p1_k sev.high.openCount
      + tierPenalty cfg.p2_max cfg.p2_k sev.medium.openCount
      + tierPenalty cfg.p3_max cfg.p3_k sev.low.openCount)
    (cfg.cap_severity : ℝ)

/-- `doc_coverage = mapped / max(total_files, 1)` (a pure rational). -/
def doc_coverage (mapped total_files : ℕ) : ℚ :=
  (mapped : ℚ) / ((max total_files 1 : ℕ) : ℚ)

/-- `doc_gap = max(0, cfg.doc_target - doc_coverage)`. -/
def doc_gap (cfg : FormulaConfig) (mapped total_files : ℕ) : ℚ :=
  max 0 (cfg.doc_target - doc_coverage mapped total_files)

/-- `doc_penalty = min(25 * doc_gap ** 1.5, cfg.cap_doc)`. -/
noncomputable def doc_penalty (cfg : FormulaConfig) (mapped total_files : ℕ) : ℝ :=
  min (25 * (doc_gap cfg mapped total_files : ℝ) ^ (1.5 : ℝ)) (cfg.cap_doc : ℝ)

/-- `stale_count` — a permanent placeholder, `0` in the source (step 3). -/
def stale_count : ℕ := 0

/-- `staleness_penalty = min(stale_count * 0.5, cfg.cap_staleness)`. -/
noncomputable def staleness_penalty (cfg : FormulaConfig) : ℝ :=
  min ((stale_count : ℝ) * 0.5) (cfg.cap_staleness : ℝ)

/-- `tier_a_unmapped` — a permanent placeholder, `0` in the source (step 4). -/
def tier_a_unmapped : ℕ := 0

/-- `tier_a_penalty = min(tier_a_unmapped * 2.0, cfg.cap_tier_a)`. -/
noncomputable def tier_a_penalty (cfg : FormulaConfig) : ℝ :=
  min ((tier_a_unmapped : ℝ) * 2.0) (cfg.cap_tier_a : ℝ)

/-- `test_pct = tests_count / max(total_files, 1)`. -/
def test_pct (tests_count total_files : ℕ) : ℚ :=
  (tests_count : ℚ) / ((max total_files 1 : ℕ) : ℚ)

/-- `test_gap = max(0, cfg.test_target - test_pct)`. -/
def test_gap (cfg : FormulaConfig) (tests_count total_files : ℕ) : ℚ :=
  max 0 (cfg.test_target - test_pct tests_count total_files)

/-- `test_penalty = min(10 * test_gap ** 1.5, cfg.cap_test)`. -/
noncomputable def test_penalty (cfg : FormulaConfig) (tests_count total_files : ℕ) : ℝ :=
  min (10 * (test_gap cfg tests_count total_files : ℝ) ^ (1.5 : ℝ)) (cfg.cap_test : ℝ)

/-- `fix_pct_bayes = (bugs_fixed + alpha) / max(bugs_total + alpha + beta, 1)`. -/
def fix_pct_bayes (cfg : FormulaConfig) (bugs_total bugs_fixed : ℕ) : ℚ :=
  ((bugs_fixed : ℚ) + cfg.alpha) / max ((bugs_total : ℚ) + cfg.alpha + cfg.beta) 1

/-- `fix_gap = max(0, cfg.fix_target - fix_pct_bayes)`. -/
def fix_gap (cfg : FormulaConfig) (bugs_total bugs_fixed : ℕ) : ℚ :=
  max 0 (cfg.fix_target - fix_pct_bayes cfg bugs_total bugs_fixed)

/-- `resolve_penalty = min(18 * fix_gap ** 1.5, cfg.cap_resolution)`. -/
noncomputable def resolve_penalty (cfg : FormulaConfig) (bugs_total bugs_fixed : ℕ) : ℝ :=
  min (18 * (fix_gap cfg bugs_total bugs_fixed : ℝ) ^ (1.5 : ℝ)) (cfg.cap_resolution : ℝ)

/-- `persistence_penalty` — placeholder, `0` in the source (step 7). -/
def persistence_penalty : ℝ := 0

/-- Number of hotspots whose risk is "high". -/
def high_count (hs : List Hotspot) : ℕ :=
  hs.countP fun h => h.risk = Risk.high

/-- Number of hotspots whose risk is "medium". -/
def med_count (hs : List Hotspot) : ℕ :=
  hs.countP fun h => h.risk = Risk.medium

/-- `hotspot_penalty`: `0` when no fingerprints are given, otherwise
`min(2.0 * log1p(3*high_count + 1*med_count), cfg.cap_hotspot)`. -/
noncomputable def hotspot_penalty (cfg : FormulaConfig) (fingerprints : Option Fingerprints) : ℝ :=
  match fingerprints with
  | none => 0
  | some fp =>
      min (2.0 * log1p ((3 * high_count fp.hotspots + 1 * med_count fp.hotspots : ℕ) : ℝ))
        (cfg.cap_hotspot : ℝ)

/-- `avg_recurrence`: the mean `bug_recurrence` over the hotspot list, `0`
when there are no fingerprints or no hotspots. -/
def avg_recurrence_of (fingerprints : Option Fingerprints) : ℚ :=
  match fingerprints with
  | none => 0
  | some fp =>
      if 0 < fp.hotspots.length then
        (fp.hotspots.map Hotspot.bug_recurrence).sum / (fp.hotspots.length : ℚ)
      else 0

/-- `recurrence_penalty = min(2.5 * log1p(avg_recurrence * 10), cfg.cap_recurrence)`. -/
noncomputable def recurrence_penalty (cfg : FormulaConfig) (fingerprints : Option Fingerprints) : ℝ :=
  min (2.5 * log1p ((avg_recurrence_of fingerprints : ℝ) * 10)) (cfg.cap_recurrence : ℝ)

/-- `critical_status` (step 10, metadata only). -/
def critical_status_of (sev : SeverityCounts) : String :=
  if 0 < sev.critical.found then
    if 0 < sev.critical.openCount then "open"
    else if sev.critical.fixed = sev.critical.found then "all_fixed"
    else "none"
  else "none"

/-- `fix_ratio_bonus` (step 11): only when the bonus is enabled and
`bugs_total > 10`; a pure rational. -/
def fixRatioBonus (cfg : FormulaConfig) (bugs_total bugs_fixed : ℕ) : ℚ :=
  if cfg.fix_ratio_bonus_enabled ∧ 10 < bugs_total then
    let actual_fix_rate : ℚ :=
      if 0 < bugs_total then (bugs_fixed : ℚ) / (bugs_total : ℚ) else 0
    if cfg.fix_ratio_bonus_threshold < actual_fix_rate then
      cfg.fix_ratio_bonus_max * (actual_fix_rate - cfg.fix_ratio_bonus_threshold)
        / (1 - cfg.fix_ratio_bonus_threshold)
    else 0
  else 0

/-- `raw_penalty`: the sum of all penalty components. -/
noncomputable def raw_penalty (cfg : FormulaConfig) (aggregates : Aggregates)
    (stats : Stats) (fingerprints : Option Fingerprints) : ℝ :=
  severity_penalty cfg aggregates.severity
    + doc_penalty cfg stats.mapped stats.scripts
    + staleness_penalty cfg
    + tier_a_penalty cfg
    + test_penalty cfg stats.tests_count stats.scripts
    + resolve_penalty cfg aggregates.summary.total_found aggregates.summary.total_fixed
    + persistence_penalty
    + hotspot_penalty cfg fingerprints
    + recurrence_penalty cfg fingerprints

/-- `total_penalty = max(0, raw_penalty - fix_ratio_bonus)`. -/
noncomputable def total_penalty (cfg : FormulaConfig) (aggregates : Aggregates)
    (stats : Stats) (fingerprints : Option Fingerprints) : ℝ :=
  max 0 (raw_penalty cfg aggregates stats fingerprints
    - (fixRatioBonus cfg aggregates.summary.total_found aggregates.summary.total_fixed : ℝ))

/-- The `sev_components` sub-record of the output. -/
structure SevComponents where
  p0 : ℝ
  p1 : ℝ
  p2 : ℝ
  p3 : ℝ

/-- The `penalty_breakdown` record of the output. -/
structure PenaltyBreakdown where
  severity : ℝ
  sev_components : SevComponents
  doc_coverage : ℝ
  staleness : ℝ
  tier_a_unmapped : ℝ
  test_coverage : ℝ
  bug_resolution : ℝ
  persistence : ℝ
  hotspot_risk : ℝ
  recurrence : ℝ
  fix_ratio_bonus : ℝ
  raw_total : ℝ
  total : ℝ

/-- The `inputs` echo record of the output. -/
structure InputsEcho where
  p0_open : ℕ
  p0_found : ℕ
  p0_fixed : ℕ
  p1_open : ℕ
  p1_found : ℕ
  p1_fixed : ℕ
  p2_open : ℕ
  p3_open : ℕ
  bugs_total : ℕ
  bugs_fixed : ℕ
  doc_coverage_pct : ℚ
  fix_pct_bayes : ℚ
  avg_recurrence : ℚ
  critical_status : String

/-- The `config` metadata record of the output. -/
structure ConfigEcho where
  K : ℚ
  formula_version : String
  fix_ratio_bonus_enabled : Bool

/-- The return value of `ConfidenceCalculator.calculate`. -/
structure ConfidenceResult where
  score : ℝ
  penalty_breakdown : PenaltyBreakdown
  inputs : InputsEcho
  config : ConfigEcho

/-- The default used when `stats` is `None`:
`{"mapped": 100, "scripts": 100, "tests_count": 10}`. -/
def defaultStats : Stats where
  mapped := 100
  scripts := 100
  tests_count := 10

/-- `ConfidenceCalculator.calculate` from `confidence_engine.py`.
`statsOpt`/`fingerprints` model the optional Python arguments; the
structures model well-typed input dictionaries (each expected key present
with a value of the documented type). -/
noncomputable def calculate (cfg : FormulaConfig) (aggregates : Aggregates)
    (statsOpt : Option Stats) (fingerprints : Option Fingerprints) : ConfidenceResult :=
  let stats := statsOpt.getD defaultStats
  let score :=
    max 0 (min 100 (round1 (100 * Real.exp
      (-(total_penalty cfg aggregates stats fingerprints) / (cfg.K : ℝ)))))
  { score := score
    penalty_breakdown :=
      { severity := round1 (severity_penalty cfg aggregates.severity)
        sev_components :=
          { p0 := round2 (tierPenalty cfg.p0_max cfg.p0_k aggregates.severity.critical.openCount)
            p1 := round2 (tierPenalty cfg.p1_max cfg.p1_k aggregates.severity.high.openCount)
            p2 := round2 (tierPenalty cfg.p2_max cfg.p2_k aggregates.severity.medium.openCount)
            p3 := round2 (tierPenalty cfg.p3_max cfg.p3_k aggregates.severity.low.openCount) }
        doc_coverage := round1 (doc_penalty cfg stats.mapped stats.scripts)
        staleness := round1 (staleness_penalty cfg)
        tier_a_unmapped := round1 (tier_a_penalty cfg)
        test_coverage := round1 (test_penalty cfg stats.tests_count stats.scripts)
        bug_resolution := round1 (resolve_penalty cfg
          aggregates.summary.total_found aggregates.summary.total_fixed)
        persistence := round1 persistence_penalty
        hotspot_risk := round1 (hotspot_penalty cfg fingerprints)
        recurrence := round1 (recurrence_penalty cfg fingerprints)
        fix_ratio_bonus := round1 ((fixRatioBonus cfg
          aggregates.summary.total_found aggregates.summary.total_fixed : ℝ))
        raw_total := round1 (raw_penalty cfg aggregates stats fingerprints)
        total := round1 (total_penalty cfg aggregates stats fingerprints) }
    inputs :=
      { p0_open := aggregates.severity.critical.openCount
        p0_found := aggregates.severity.critical.found
        p0_fixed := aggregates.severity.critical.fixed
        p1_open := aggregates.severity.high.openCount
        p1_found := aggregates.severity.high.found
        p1_fixed := aggregates.severity.high.fixed
        p2_open := aggregates.severity.medium.openCount
        p3_open := aggregates.severity.low.openCount
        bugs_total := aggregates.summary.total_found
        bugs_fixed := aggregates.summary.total_fixed
        doc_coverage_pct := qround1 (doc_coverage stats.mapped stats.scripts * 100)
        fix_pct_bayes := qround1 (fix_pct_bayes cfg
          aggregates.summary.total_found aggregates.summary.total_fixed * 100)
        avg_recurrence := qround3 (avg_recurrence_of fingerprints)
        critical_status := critical_status_of aggregates.severity }
    config :=
      { K := cfg.K
        formula_version := "v1.0.0"
        fix_ratio_bonus_enabled := cfg.fix_ratio_bonus_enabled } }

/-!
## Legacy calculator (`src/tools/calculate_confidence.py`)
-/

namespace Legacy

/-- Scoring constant `K = 45` of `calculate_confidence.py`. -/
def K : ℚ := 45

/-- `EMA_WEIGHT = 0.7`: weight of the current score in EMA smoothing. -/
def EMA_WEIGHT : ℚ := 7/10

/-- The `metrics` input dictionary of `calculate_confidence` (well-typed:
every key present with a value of the documented type). -/
structure Metrics where
  sev_p0 : ℕ
  sev_p1 : ℕ
  sev_p2 : ℕ
  sev_p3 : ℕ
  mapped : ℕ
  unmapped : ℕ
  stale_count : ℕ
  avg_staleness : ℚ
  tierA_stale_count : ℕ
  tierA_unmapped : ℕ
  scripts : ℕ
  tests_count : ℕ
  bug_resolve_pct : ℚ

/-- Step 1: `min(10*p0 + 3*p1 + 1*p2 + 0.05*p3, 40.0)`. -/
def severity_penalty (m : Metrics) : ℚ :=
  min (10 * (m.sev_p0 : ℚ) + 3 * (m.sev_p1 : ℚ) + 1 * (m.sev_p2 : ℚ)
      + (5/100) * (m.sev_p3 : ℚ)) 40

/-- Step 2: `doc_coverage = mapped / max(mapped + unmapped, 1)`. -/
def doc_coverage (m : Metrics) : ℚ :=
  (m.mapped : ℚ) / ((max (m.mapped + m.unmapped) 1 : ℕ) : ℚ)

/-- Step 2: `max(0, min(10, (0.9 - doc_coverage) * 22.2))`. -/
def doc_penalty (m : Metrics) : ℚ :=
  max 0 (min 10 ((9/10 - doc_coverage m) * (222/10)))

/-- Step 3: staleness penalty, three linear capped parts capped at 15. -/
def staleness_penalty (m : Metrics) : ℚ :=
  min (min ((m.stale_count : ℚ) * (5/10)) 6
      + min (m.avg_staleness / 15) 6
      + min ((m.tierA_stale_count : ℚ) * 1) 6) 15

/-- Step 4: `min(tierA_unmapped * 2.0, 10.0)`. -/
def tier_a_unmapped_penalty (m : Metrics) : ℚ :=
  min ((m.tierA_unmapped : ℚ) * 2) 10

/-- Step 5: `tests_per_100 = tests_count / max(scripts, 1) * 100`. -/
def tests_per_100 (m : Metrics) : ℚ :=
  (m.tests_count : ℚ) / ((max m.scripts 1 : ℕ) : ℚ) * 100

/-- Step 5: `max(0, min(6, (5 - tests_per_100) * 1.5))`. -/
def test_penalty (m : Metrics) : ℚ :=
  max 0 (min 6 ((5 - tests_per_100 m) * (15/10)))

/-- Step 6: `max(0, min(5, (0.7 - resolve_pct) * 10))`. -/
def resolve_penalty (m : Metrics) : ℚ :=
  max 0 (min 5 ((7/10 - m.bug_resolve_pct) * 10))

/-- Step 7: total penalty. -/
def total_penalty (m : Metrics) : ℚ :=
  severity_penalty m + doc_penalty m + staleness_penalty m
    + tier_a_unmapped_penalty m + test_penalty m + resolve_penalty m

/-- Step 8: `base_score = 100 * exp(-total_penalty / K)`. -/
noncomputable def base_score (m : Metrics) : ℝ :=
  100 * Real.exp (-(total_penalty m : ℝ) / (K : ℝ))

/-- Step 9: EMA smoothing against an optional previous score:
`EMA_WEIGHT * base + (1 - EMA_WEIGHT) * previous`, or `base` alone. -/
noncomputable def emaSmooth (base : ℝ) (previous_score : Option ℝ) : ℝ :=
  match previous_score with
  | some p => (EMA_WEIGHT : ℝ) * base + (1 - (EMA_WEIGHT : ℝ)) * p
  | none => base

/-- The `penalty_breakdown` record of the legacy output. -/
structure Breakdown where
  severity : ℚ
  doc_coverage : ℚ
  staleness : ℚ
  tierA_unmapped : ℚ
  test_coverage : ℚ
  resolve : ℚ
  total : ℚ

/-- The `release_gates` record of the legacy output. -/
structure ReleaseGates where
  p0_zero : Prop
  tier_a_mapped : Prop
  staleness_ok : Prop
  score_ok : Prop
  can_ship : Prop

/-- The return value of the legacy `calculate_confidence`. -/
structure Result where
  score : ℤ
  base_score : ℤ
  doc_coverage_pct : ℚ
  bug_resolve_pct : ℚ
  penalty_breakdown : Breakdown
  release_gates : ReleaseGates

/-- `calculate_confidence(metrics, previous_score)` from
`calculate_confidence.py`. -/
noncomputable def calculate_confidence (m : Metrics) (previous_score : Option ℝ) : Result :=
  let final_score := emaSmooth (base_score m) previous_score
  { score := pyRound final_score
    base_score := pyRound (base_score m)
    doc_coverage_pct := qround1 (doc_coverage m * 100)
    bug_resolve_pct := qround1 (m.bug_resolve_pct * 100)
    penalty_breakdown :=
      { severity := qround1 (severity_penalty m)
        doc_coverage := qround1 (doc_penalty m)
        staleness := qround1 (staleness_penalty m)
        tierA_unmapped := qround1 (tier_a_unmapped_penalty m)
        test_coverage := qround1 (test_penalty m)
        resolve := qround1 (resolve_penalty m)
        total := qround1 (total_penalty m) }
    release_gates :=
      { p0_zero := m.sev_p0 = 0
        tier_a_mapped := m.tierA_unmapped = 0
        staleness_ok := m.avg_staleness < 21
        score_ok := final_score ≥ 70
        can_ship := m.sev_p0 = 0 ∧ m.tierA_unmapped = 0 } }

end Legacy

/-!
## Configuration loading (`ConfidenceCalculator._load_config`)

A parsed JSON document is modelled by `JVal`; objects are modelled as
(finite) maps from keys to values, exactly the interface Python `dict.get`
uses.  The model covers well-typed documents: leaf values are numbers or
booleans.  A document whose text `json.loads` rejects is modelled as
`Except.error`.
-/

/-- A parsed JSON-like value. -/
inductive JVal where
  | num (q : ℚ)
  | bool (b : Bool)
  | obj (fields : String → Option JVal)

/-- The empty JSON object `{}`. -/
def emptyObj : JVal := .obj fun _ => none

/-- Python `receiver.get(key, default)`: `none` models the exception
raised when the receiver is not a dict. -/
def JVal.getD (j : JVal) (key : String) (d : JVal) : Option JVal :=
  match j with
  | .obj f => some ((f key).getD d)
  | _ => none

/-- Read a numeric leaf looked up in an object, with default (in a
well-typed document a present leaf is a number). -/
def numD (v : Option JVal) (d : ℚ) : ℚ :=
  match v with
  | some (.num q) => q
  | _ => d

/-- Read a boolean leaf looked up in an object, with default. -/
def boolD (v : Option JVal) (d : Bool) : Bool :=
  match v with
  | some (.bool b) => b
  | _ => d

/-- The `severity_weights` section of `_load_config`; `none` models the
exception raised when the section's value is not a dict (no field of the
section is assigned in that case). -/
def weightsStage (cfg : FormulaConfig) (weights : JVal) : Option FormulaConfig :=
  match weights with
  | .obj f => some { cfg with
      p0_max := numD (f "p0_max") cfg.p0_max
      p0_k := numD (f "p0_k") cfg.p0_k
      p1_max := numD (f "p1_max") cfg.p1_max
      p1_k := numD (f "p1_k") cfg.p1_k
      p2_max := numD (f "p2_max") cfg.p2_max
      p2_k := numD (f "p2_k") cfg.p2_k
      p3_max := numD (f "p3_max") cfg.p3_max
      p3_k := numD (f "p3_k") cfg.p3_k }
  | _ => none

/-- The `penalty_caps` section of `_load_config`. -/
def capsStage (cfg : FormulaConfig) (caps : JVal) : Option FormulaConfig :=
  match caps with
  | .obj f => some { cfg with
      cap_severity := numD (f "severity") cfg.cap_severity
      cap_doc := numD (f "doc_coverage") cfg.cap_doc
      cap_staleness := numD (f "staleness") cfg.cap_staleness
      cap_tier_a := numD (f "tier_a") cfg.cap_tier_a
      cap_test := numD (f "test_coverage") cfg.cap_test
      cap_resolution := numD (f "resolution") cfg.cap_resolution
      cap_hotspot := numD (f "hotspot") cfg.cap_hotspot
      cap_recurrence := numD (f "recurrence") cfg.cap_recurrence }
  | _ => none

/-- The `thresholds` section of `_load_config`; note the document keys the
source reads: `doc_coverage_target`, `fix_rate_target`,
`test_coverage_target`. -/
def thresholdsStage (cfg : FormulaConfig) (thresholds : JVal) : Option FormulaConfig :=
  match thresholds with
  | .obj f => some { cfg with
      doc_target := numD (f "doc_coverage_target") cfg.doc_target
      fix_target := numD (f "fix_rate_target") cfg.fix_target
      test_target := numD (f "test_coverage_target") cfg.test_target }
  | _ => none

/-- The `bayesian_priors` section of `_load_config`. -/
def priorsStage (cfg : FormulaConfig) (priors : JVal) : Option FormulaConfig :=
  match priors with
  | .obj f => some { cfg with
      alpha := numD (f "alpha") cfg.alpha
      beta := numD (f "beta") cfg.beta }
  | _ => none

/-- The `fix_ratio_bonus` section of `_load_config`. -/
def bonusStage (cfg : FormulaConfig) (fix_bonus : JVal) : Option FormulaConfig :=
  match fix_bonus with
  | .obj f => some { cfg with
      fix_ratio_bonus_enabled := boolD (f "enabled") cfg.fix_ratio_bonus_enabled
      fix_ratio_bonus_threshold := numD (f "threshold") cfg.fix_ratio_bonus_threshold
      fix_ratio_bonus_max := numD (f "max_bonus") cfg.fix_ratio_bonus_max }
  | _ => none

/-- The body of `_load_config` applied to the `confidence_formula` object.
Sections are processed in source order; a section whose value is not a
dict raises inside the `try`, so the sections after it are skipped and the
assignments made so far are kept (the exception is caught by the loader). -/
def applyFormula (cfg0 : FormulaConfig) (f : String → Option JVal) : FormulaConfig :=
  let c1 := { cfg0 with K := numD (f "K") cfg0.K }
  match weightsStage c1 ((f "severity_weights").getD emptyObj) with
  | none => c1
  | some c2 =>
    match capsStage c2 ((f "penalty_caps").getD emptyObj) with
    | none => c2
    | some c3 =>
      match thresholdsStage c3 ((f "thresholds").getD emptyObj) with
      | none => c3
      | some c4 =>
        match priorsStage c4 ((f "bayesian_priors").getD emptyObj) with
        | none => c4
        | some c5 =>
          match bonusStage c5 ((f "fix_ratio_bonus").getD emptyObj) with
          | none => c5
          | some c6 =>
            { c6 with
              investigating_discount := numD (f "investigating_discount") c6.investigating_discount }

/-- `_load_config` applied to a successfully parsed document.  When the
document or the `confidence_formula` value is not an object the very
first `get` raises, the exception is caught, and the configuration is
left unchanged. -/
def applyConfigDoc (cfg0 : FormulaConfig) (data : JVal) : FormulaConfig :=
  match data with
  | .obj df =>
    match (df "confidence_formula").getD emptyObj with
    | .obj f => applyFormula cfg0 f
    | _ => cfg0
  | _ => cfg0

/-- `ConfidenceCalculator._load_config`: a parse failure of the document
text (`json.loads` raising on a malformed file) is caught by the
`try/except`, a warning is printed, and the configuration is unchanged;
nothing is ever raised to the caller. -/
def loadConfig (cfg0 : FormulaConfig) (parsed : Except String JVal) : FormulaConfig :=
  match parsed with
  | .error _ => cfg0
  | .ok data => applyConfigDoc cfg0 data

/-!
### Spec-side description of a configuration document (for claim C9)

The structures below follow the spec's words (§4.1, §6): a document is a
set of optional sections, each an optional set of named fields; loading
merges per-field.  `jsonOfConfigDoc` realizes such a document as JSON
with the key names the source actually reads.
-/

/-- Spec-side `severity_weights` section: each field optional. -/
structure SeverityWeightsDoc where
  p0_max : Option ℚ
  p0_k : Option ℚ
  p1_max : Option ℚ
  p1_k : Option ℚ
  p2_max : Option ℚ
  p2_k : Option ℚ
  p3_max : Option ℚ
  p3_k : Option ℚ

/-- Spec-side `penalty_caps` section. -/
structure PenaltyCapsDoc where
  severity : Option ℚ
  doc_coverage : Option ℚ
  staleness : Option ℚ
  tier_a : Option ℚ
  test_coverage : Option ℚ
  resolution : Option ℚ
  hotspot : Option ℚ
  recurrence : Option ℚ

/-- Spec-side `thresholds` section. -/
structure ThresholdsDoc where
  doc_coverage_target : Option ℚ
  fix_rate_target : Option ℚ
  test_coverage_target : Option ℚ

/-- Spec-side `bayesian_priors` section. -/
structure BayesianPriorsDoc where
  alpha : Option ℚ
  beta : Option ℚ

/-- Spec-side `fix_ratio_bonus` section. -/
structure FixRatioBonusDoc where
  enabled : Option Bool
  threshold : Option ℚ
  max_bonus : Option ℚ

/-- Spec-side configuration document under the `confidence_formula` key. -/
structure ConfigDoc where
  K : Option ℚ
  severity_weights : Option SeverityWeightsDoc
  penalty_caps : Option PenaltyCapsDoc
  thresholds : Option ThresholdsDoc
  bayesian_priors : Option BayesianPriorsDoc
  fix_ratio_bonus : Option FixRatioBonusDoc
  investigating_discount : Option ℚ

/-- Realize a spec-side document as JSON, with the key names the source
reads: a field set to `none` is absent from the emitted object. -/
def jsonOfWeights (w : SeverityWeightsDoc) : JVal :=
  .obj fun key =>
    if key = "p0_max" then w.p0_max.map .num
    else if key = "p0_k" then w.p0_k.map .num
    else if key = "p1_max" then w.p1_max.map .num
    else if key = "p1_k" then w.p1_k.map .num
    else if key = "p2_max" then w.p2_max.map .num
    else if key = "p2_k" then w.p2_k.map .num
    else if key = "p3_max" then w.p3_max.map .num
    else if key = "p3_k" then w.p3_k.map .num
    else none

/-- JSON form of the `penalty_caps` section. -/
def jsonOfCaps (c : PenaltyCapsDoc) : JVal :=
  .obj fun key =>
    if key = "severity" then c.severity.map .num
    else if key = "doc_coverage" then c.doc_coverage.map .num
    else if key = "staleness" then c.staleness.map .num
    else if key = "tier_a" then c.tier_a.map .num
    else if key = "test_coverage" then c.test_coverage.map .num
    else if key = "resolution" then c.resolution.map .num
    else if key = "hotspot" then c.hotspot.map .num
    else if key = "recurrence" then c.recurrence.map .num
    else none

/-- JSON form of the `thresholds` section. -/
def jsonOfThresholds (t : ThresholdsDoc) : JVal :=
  .obj fun key =>
    if key = "doc_coverage_target" then t.doc_coverage_target.map .num
    else if key = "fix_rate_target" then t.fix_rate_target.map .num
    else if key = "test_coverage_target" then t.test_coverage_target.map .num
    else none

/-- JSON form of the `bayesian_priors` section. -/
def jsonOfPriors (p : BayesianPriorsDoc) : JVal :=
  .obj fun key =>
    if key = "alpha" then p.alpha.map .num
    else if key = "beta" then p.beta.map .num
    else none

/-- JSON form of the `fix_ratio_bonus` section. -/
def jsonOfBonus (b : FixRatioBonusDoc) : JVal :=
  .obj fun key =>
    if key = "enabled" then b.enabled.map .bool
    else if key = "threshold" then b.threshold.map .num
    else if key = "max_bonus" then b.max_bonus.map .num
    else none

/-- JSON form of a whole well-formed configuration document. -/
def jsonOfConfigDoc (d : ConfigDoc) : JVal :=
  .obj fun key =>
    if key = "confidence_formula" then
      some (.obj fun k =>
        if k = "K" then d.K.map .num
        else if k = "severity_weights" then d.severity_weights.map jsonOfWeights
        else if k = "penalty_caps" then d.penalty_caps.map jsonOfCaps
        else if k = "thresholds" then d.thresholds.map jsonOfThresholds
        else if k = "bayesian_priors" then d.bayesian_priors.map jsonOfPriors
        else if k = "fix_ratio_bonus" then d.fix_ratio_bonus.map jsonOfBonus
        else if k = "investigating_discount" then d.investigating_discount.map .num
        else none)
    else none

/-- Modelled from the spec (§4.1): per-field merge of a configuration
document into a configuration — "each named field that is present
overrides the corresponding default; fields absent in a present section
keep their default".  This is the spec-side definition that the loader is
compared against. -/
def specMerge (cfg : FormulaConfig) (d : ConfigDoc) : FormulaConfig :=
  let w := d.severity_weights.getD ⟨none, none, none, none, none, none, none, none⟩
  let c := d.penalty_caps.getD ⟨none, none, none, none, none, none, none, none⟩
  let t := d.thresholds.getD ⟨none, none, none⟩
  let p := d.bayesian_priors.getD ⟨none, none⟩
  let b := d.fix_ratio_bonus.getD ⟨none, none, none⟩
  { K := d.K.getD cfg.K
    p0_max := w.p0_max.getD cfg.p0_max
    p0_k := w.p0_k.getD cfg.p0_k
    p1_max := w.p1_max.getD cfg.p1_max
    p1_k := w.p1_k.getD cfg.p1_k
    p2_max := w.p2_max.getD cfg.p2_max
    p2_k := w.p2_k.getD cfg.p2_k
    p3_max := w.p3_max.getD cfg.p3_max
    p3_k := w.p3_k.getD cfg.p3_k
    cap_severity := c.severity.getD cfg.cap_severity
    cap_doc := c.doc_coverage.getD cfg.cap_doc
    cap_staleness := c.staleness.getD cfg.cap_staleness
    cap_tier_a := c.tier_a.getD cfg.cap_tier_a
    cap_test := c.test_coverage.getD cfg.cap_test
    cap_resolution := c.resolution.getD cfg.cap_resolution
    cap_hotspot := c.hotspot.getD cfg.cap_hotspot
    cap_recurrence := c.recurrence.getD cfg.cap_recurrence
    doc_target := t.doc_coverage_target.getD cfg.doc_target
    fix_target := t.fix_rate_target.getD cfg.fix_target
    test_target := t.test_coverage_target.getD cfg.test_target
    alpha := p.alpha.getD cfg.alpha
    beta := p.beta.getD cfg.beta
    fix_ratio_bonus_enabled := b.enabled.getD cfg.fix_ratio_bonus_enabled
    fix_ratio_bonus_threshold := b.threshold.getD cfg.fix_ratio_bonus_threshold
    fix_ratio_bonus_max := b.max_bonus.getD cfg.fix_ratio_bonus_max
    investigating_discount := d.investigating_discount.getD cfg.investigating_discount }

/-!
## Checked evaluation of the engine

`calculateChecked` mirrors `ConfidenceCalculator.calculate` operation by
operation, but guards every arithmetic step that can raise in Python:
division by zero, `math.log1p` outside its domain `(-1, ∞)`, and a
fractional power of a negative base (which does not produce a float).
`none` models an exception escaping `calculate`; the totality claim is
that on well-typed inputs the checked run always produces `some` of the
unchecked result.
-/

open Classical in
noncomputable def pyDiv (a b : ℝ) : Option ℝ := if b = 0 then none else some (a / b)

def pyDivQ (a b : ℚ) : Option ℚ := if b = 0 then none else some (a / b)

open Classical in
noncomputable def pyLog1p (x : ℝ) : Option ℝ := if x ≤ -1 then none else some (Real.log (1 + x))

open Classical in
noncomputable def pyPow15 (x : ℝ) : Option ℝ := if x < 0 then none else some (x ^ (1.5 : ℝ))

/-- Checked `max_t * (1 - exp(-open_t / k_t))`. -/
noncomputable def tierPenaltyChecked (mx k : ℚ) (opened : ℕ) : Option ℝ := do
  let q ← pyDiv (-(opened : ℝ)) (k : ℝ)
  pure ((mx : ℝ) * (1 - Real.exp q))

/-- Checked `doc_coverage`. -/
def doc_coverageChecked (mapped total_files : ℕ) : Option ℚ :=
  pyDivQ (mapped : ℚ) ((max total_files 1 : ℕ) : ℚ)

/-- Checked `doc_penalty`. -/
noncomputable def doc_penaltyChecked (cfg : FormulaConfig) (mapped total_files : ℕ) : Option ℝ := do
  let cov ← doc_coverageChecked mapped total_files
  let p ← pyPow15 ((max 0 (cfg.doc_target - cov) : ℚ) : ℝ)
  pure (min (25 * p) (cfg.cap_doc : ℝ))

/-- Checked `test_penalty`. -/
noncomputable def test_penaltyChecked (cfg : FormulaConfig) (tests_count total_files : ℕ) : Option ℝ := do
  let pct ← pyDivQ (tests_count : ℚ) ((max total_files 1 : ℕ) : ℚ)
  let p ← pyPow15 ((max 0 (cfg.test_target - pct) : ℚ) : ℝ)
  pure (min (10 * p) (cfg.cap_test : ℝ))

/-- Checked `fix_pct_bayes`. -/
def fix_pct_bayesChecked (cfg : FormulaConfig) (bugs_total bugs_fixed : ℕ) : Option ℚ :=
  pyDivQ ((bugs_fixed : ℚ) + cfg.alpha) (max ((bugs_total : ℚ) + cfg.alpha + cfg.beta) 1)

/-- Checked `resolve_penalty`. -/
noncomputable def resolve_penaltyChecked (cfg : FormulaConfig) (bugs_total bugs_fixed : ℕ) : Option ℝ := do
  let fpb ← fix_pct_bayesChecked cfg bugs_total bugs_fixed
  let p ← pyPow15 ((max 0 (cfg.fix_target - fpb) : ℚ) : ℝ)
  pure (min (18 * p) (cfg.cap_resolution : ℝ))

/-- Checked `fix_ratio_bonus` (the rate division is guarded in the source
by `if bugs_total > 0`). -/
def fixRatioBonusChecked (cfg : FormulaConfig) (bugs_total bugs_fixed : ℕ) : Option ℚ :=
  if cfg.fix_ratio_bonus_enabled ∧ 10 < bugs_total then do
    let rate ← if 0 < bugs_total then pyDivQ (bugs_fixed : ℚ) (bugs_total : ℚ) else pure 0
    if cfg.fix_ratio_bonus_threshold < rate then
      pyDivQ (cfg.fix_ratio_bonus_max * (rate - cfg.fix_ratio_bonus_threshold))
        (1 - cfg.fix_ratio_bonus_threshold)
    else pure 0
  else pure 0

/-- Checked `hotspot_penalty`. -/
noncomputable def hotspot_penaltyChecked (cfg : FormulaConfig)
    (fingerprints : Option Fingerprints) : Option ℝ :=
  match fingerprints with
  | none => pure 0
  | some fp => do
      let l ← pyLog1p ((3 * high_count fp.hotspots + 1 * med_count fp.hotspots : ℕ) : ℝ)
      pure (min (2.0 * l) (cfg.cap_hotspot : ℝ))

/-- Checked `avg_recurrence` (the division is guarded in the source by a
length check). -/
def avg_recurrenceChecked (fingerprints : Option Fingerprints) : Option ℚ :=
  match fingerprints with
  | none => pure 0
  | some fp =>
      if 0 < fp.hotspots.length then
        pyDivQ (fp.hotspots.map Hotspot.bug_recurrence).sum (fp.hotspots.length : ℚ)
      else pure 0

/-- Checked `recurrence_penalty`. -/
noncomputable def recurrence_penaltyChecked (cfg : FormulaConfig)
    (fingerprints : Option Fingerprints) : Option ℝ := do
  let avg ← avg_recurrenceChecked fingerprints
  let l ← pyLog1p ((avg : ℝ) * 10)
  pure (min (2.5 * l) (cfg.cap_recurrence : ℝ))

/-- Checked mirror of `ConfidenceCalculator.calculate`. -/
noncomputable def calculateChecked (cfg : FormulaConfig) (aggregates : Aggregates)
    (statsOpt : Option Stats) (fingerprints : Option Fingerprints) : Option ConfidenceResult := do
  let t0 ← tierPenaltyChecked cfg.p0_max cfg.p0_k aggregates.severity.critical.openCount
  let t1 ← tierPenaltyChecked cfg.p1_max cfg.p1_k aggregates.severity.high.openCount
  let t2 ← tierPenaltyChecked cfg.p2_max cfg.p2_k aggregates.severity.medium.openCount
  let t3 ← tierPenaltyChecked cfg.p3_max cfg.p3_k aggregates.severity.low.openCount
  let sevP := min (t0 + t1 + t2 + t3) (cfg.cap_severity : ℝ)
  let cov ← doc_coverageChecked (statsOpt.getD defaultStats).mapped (statsOpt.getD defaultStats).scripts
  let docP ← doc_penaltyChecked cfg (statsOpt.getD defaultStats).mapped (statsOpt.getD defaultStats).scripts
  let staleP := min ((stale_count : ℝ) * 0.5) (cfg.cap_staleness : ℝ)
  let tierAP := min ((tier_a_unmapped : ℝ) * 2.0) (cfg.cap_tier_a : ℝ)
  let testP ← test_penaltyChecked cfg (statsOpt.getD defaultStats).tests_count (statsOpt.getD defaultStats).scripts
  let fpb ← fix_pct_bayesChecked cfg aggregates.summary.total_found aggregates.summary.total_fixed
  let resP ← resolve_penaltyChecked cfg aggregates.summary.total_found aggregates.summary.total_fixed
  let hotP ← hotspot_penaltyChecked cfg fingerprints
  let avg ← avg_recurrenceChecked fingerprints
  let recP ← recurrence_penaltyChecked cfg fingerprints
  let bonus ← fixRatioBonusChecked cfg aggregates.summary.total_found aggregates.summary.total_fixed
  let rawP := sevP + docP + staleP + tierAP + testP + resP + persistence_penalty + hotP + recP
  let totP := max 0 (rawP - (bonus : ℝ))
  let sc ← pyDiv (-totP) (cfg.K : ℝ)
  let score := max 0 (min 100 (round1 (100 * Real.exp sc)))
  pure
    { score := score
      penalty_breakdown :=
        { severity := round1 sevP
          sev_components := { p0 := round2 t0, p1 := round2 t1, p2 := round2 t2, p3 := round2 t3 }
          doc_coverage := round1 docP
          staleness := round1 staleP
          tier_a_unmapped := round1 tierAP
          test_coverage := round1 testP
          bug_resolution := round1 resP
          persistence := round1 persistence_penalty
          hotspot_risk := round1 hotP
          recurrence := round1 recP
          fix_ratio_bonus := round1 (bonus : ℝ)
          raw_total := round1 rawP
          total := round1 totP }
      inputs :=
        { p0_open := aggregates.severity.critical.openCount
          p0_found := aggregates.severity.critical.found
          p0_fixed := aggregates.severity.critical.fixed
          p1_open := aggregates.severity.high.openCount
          p1_found := aggregates.severity.high.found
          p1_fixed := aggregates.severity.high.fixed
          p2_open := aggregates.severity.medium.openCount
          p3_open := aggregates.severity.low.openCount
          bugs_total := aggregates.summary.total_found
          bugs_fixed := aggregates.summary.total_fixed
          doc_coverage_pct := qround1 (cov * 100)
          fix_pct_bayes := qround1 (fpb * 100)
          avg_recurrence := qround3 avg
          critical_status := critical_status_of aggregates.severity }
      config :=
        { K := cfg.K
          formula_version := "v1.0.0"
          fix_ratio_bonus_enabled := cfg.fix_ratio_bonus_enabled } }

/-- The configuration document `{"confidence_formula": {"thresholds":
{"doc_target": 0.5}}}`, written with the threshold key name the spec
gives (`doc_target`) rather than the one the source reads
(`doc_coverage_target`). -/
def docTargetDoc : JVal :=
  .obj fun key =>
    if key = "confidence_formula" then
      some (.obj fun k =>
        if k = "thresholds" then
          some (.obj fun k2 => if k2 = "doc_target" then some (.num (1/2)) else none)
        else none)
    else none

/-!
## Helper lemmas
-/

theorem pyRound_eq {x : ℝ} {n : ℤ} (h1 : (n : ℝ) - 1/2 < x) (h2 : x < (n : ℝ) + 1/2) :
    pyRound x = n := by
  unfold pyRound
  rcases lt_or_le x n with hx | hx
  · have hf : ⌊x⌋ = n - 1 := by
      rw [Int.floor_eq_iff]
      constructor
      · push_cast; linarith
      · push_cast; linarith
    rw [hf]
    have hlt : ¬ (x - ((n - 1 : ℤ) : ℝ) < 1/2) := by push_cast; linarith
    have hgt : (1:ℝ)/2 < x - ((n - 1 : ℤ) : ℝ) := by push_cast; linarith
    simp only [if_neg hlt, if_pos hgt]
    omega
  · have hf : ⌊x⌋ = n := by
      rw [Int.floor_eq_iff]
      refine ⟨hx, by linarith⟩
    rw [hf]
    have hlt : x - (n : ℝ) < 1/2 := by linarith
    simp only [if_pos hlt]

theorem round1_eq (n : ℤ) {x : ℝ} (h1 : (n : ℝ) - 1/2 < x * 10) (h2 : x * 10 < (n : ℝ) + 1/2) :
    round1 x = (n : ℝ) / 10 := by
  unfold round1
  rw [pyRound_eq h1 h2]

theorem round1_zero : round1 0 = 0 := by
  have h : round1 0 = ((0 : ℤ) : ℝ) / 10 := round1_eq 0 (by norm_num) (by norm_num)
  rw [h]
  norm_num

theorem rpow_three_halves {x : ℝ} (hx : 0 ≤ x) : x ^ (1.5 : ℝ) = x * Real.sqrt x := by
  rcases eq_or_lt_of_le hx with h | h
  · rw [← h, Real.zero_rpow (by norm_num), Real.sqrt_zero, mul_zero]
  · have h15 : (1.5 : ℝ) = 1 + 1/2 := by norm_num
    rw [h15, Real.rpow_add h, Real.rpow_one, ← Real.sqrt_eq_rpow]

theorem tierPenalty_zero (mx k : ℚ) : tierPenalty mx k 0 = 0 := by
  unfold tierPenalty
  norm_num

theorem tierPenalty_mono {mx k : ℚ} (hmx : 0 ≤ mx) (hk : 0 < k) {a b : ℕ} (hab : a ≤ b) :
    tierPenalty mx k a ≤ tierPenalty mx k b := by
  unfold tierPenalty
  have hkR : (0:ℝ) < (k : ℝ) := by exact_mod_cast hk
  have hmxR : (0:ℝ) ≤ (mx : ℝ) := by exact_mod_cast hmx
  apply mul_le_mul_of_nonneg_left _ hmxR
  apply sub_le_sub_left
  apply Real.exp_le_exp.mpr
  rw [div_le_div_iff_of_pos_right hkR]
  exact neg_le_neg (by exact_mod_cast hab)

/-- Degree-4 Taylor bracketing of `exp (-c)` on `[0, 1]`, from
`Real.exp_bound`. -/
theorem exp_neg_taylor_bounds (c : ℝ) (h0 : 0 ≤ c) (h1 : c ≤ 1) :
    1 - c + c^2/2 - c^3/6 - c^4*(5/96) ≤ Real.exp (-c) ∧
    Real.exp (-c) ≤ 1 - c + c^2/2 - c^3/6 + c^4*(5/96) := by
  have habs : |(-c)| ≤ 1 := by rw [abs_neg, abs_of_nonneg h0]; exact h1
  have hb := Real.exp_bound habs (by norm_num : 0 < 4)
  have hsum : ∑ m ∈ Finset.range 4, (-c)^m / (m.factorial : ℝ) = 1 - c + c^2/2 - c^3/6 := by
    simp [Finset.sum_range_succ, Nat.factorial]
    ring
  rw [hsum] at hb
  have habs2 : |(-c)| = c := by rw [abs_neg, abs_of_nonneg h0]
  rw [habs2] at hb
  norm_num [Nat.factorial] at hb
  have hlo := (abs_le.mp hb).1
  have hhi := (abs_le.mp hb).2
  constructor <;> nlinarith [hlo, hhi]

theorem numD_map_num (o : Option ℚ) (d : ℚ) : numD (o.map JVal.num) d = o.getD d := by
  cases o <;> rfl

theorem boolD_map_bool (o : Option Bool) (d : Bool) : boolD (o.map JVal.bool) d = o.getD d := by
  cases o <;> rfl

theorem pyDiv_eq {a b : ℝ} (hb : b ≠ 0) : pyDiv a b = some (a / b) := by
  unfold pyDiv
  rw [if_neg hb]

theorem pyDivQ_eq {a b : ℚ} (hb : b ≠ 0) : pyDivQ a b = some (a / b) := by
  unfold pyDivQ
  rw [if_neg hb]

theorem pyLog1p_eq {x : ℝ} (hx : 0 ≤ x) : pyLog1p x = some (Real.log (1 + x)) := by
  unfold pyLog1p
  rw [if_neg (by linarith)]

theorem pyPow15_eq {x : ℝ} (hx : 0 ≤ x) : pyPow15 x = some (x ^ (1.5 : ℝ)) := by
  unfold pyPow15
  rw [if_neg (not_lt.mpr hx)]

theorem tierPenaltyChecked_eq {mx k : ℚ} (n : ℕ) (hk : (k : ℝ) ≠ 0) :
    tierPenaltyChecked mx k n = some (tierPenalty mx k n) := by
  unfold tierPenaltyChecked tierPenalty
  rw [pyDiv_eq hk]
  rfl

theorem natMax1_ne_zero (n : ℕ) : ((max n 1 : ℕ) : ℚ) ≠ 0 := by
  have h : 0 < max n 1 := by omega
  exact_mod_cast h.ne'

theorem doc_coverageChecked_eq (mapped total_files : ℕ) :
    doc_coverageChecked mapped total_files = some (doc_coverage mapped total_files) := by
  unfold doc_coverageChecked doc_coverage
  rw [pyDivQ_eq (natMax1_ne_zero total_files)]

theorem gap_cast_nonneg (a b : ℚ) : (0:ℝ) ≤ ((max 0 (a - b) : ℚ) : ℝ) := by
  have h : (0:ℚ) ≤ max 0 (a - b) := le_max_left 0 _
  exact_mod_cast h

theorem doc_penaltyChecked_eq (cfg : FormulaConfig) (mapped total_files : ℕ) :
    doc_penaltyChecked cfg mapped total_files = some (doc_penalty cfg mapped total_files) := by
  unfold doc_penaltyChecked doc_penalty doc_gap
  rw [doc_coverageChecked_eq]
  show (pyPow15 _).bind _ = _
  rw [pyPow15_eq (gap_cast_nonneg _ _)]
  rfl

theorem test_penaltyChecked_eq (cfg : FormulaConfig) (tests_count total_files : ℕ) :
    test_penaltyChecked cfg tests_count total_files
      = some (test_penalty cfg tests_count total_files) := by
  unfold test_penaltyChecked test_penalty test_gap test_pct
  rw [pyDivQ_eq (natMax1_ne_zero total_files)]
  show (pyPow15 _).bind _ = _
  rw [pyPow15_eq (gap_cast_nonneg _ _)]
  rfl

theorem ratMax1_ne_zero (x : ℚ) : max x 1 ≠ 0 := by
  have h : (0:ℚ) < max x 1 := lt_of_lt_of_le one_pos (le_max_right x 1)
  exact h.ne'

theorem fix_pct_bayesChecked_eq (cfg : FormulaConfig) (bugs_total bugs_fixed : ℕ) :
    fix_pct_bayesChecked cfg bugs_total bugs_fixed
      = some (fix_pct_bayes cfg bugs_total bugs_fixed) := by
  unfold fix_pct_bayesChecked fix_pct_bayes
  rw [pyDivQ_eq (ratMax1_ne_zero _)]

theorem resolve_penaltyChecked_eq (cfg : FormulaConfig) (bugs_total bugs_fixed : ℕ) :
    resolve_penaltyChecked cfg bugs_total bugs_fixed
      = some (resolve_penalty cfg bugs_total bugs_fixed) := by
  unfold resolve_penaltyChecked resolve_penalty fix_gap
  rw [fix_pct_bayesChecked_eq]
  show (pyPow15 _).bind _ = _
  rw [pyPow15_eq (gap_cast_nonneg _ _)]
  rfl

theorem fixRatioBonusChecked_eq (cfg : FormulaConfig) (bugs_total bugs_fixed : ℕ)
    (hthr : 1 - cfg.fix_ratio_bonus_threshold ≠ 0) :
    fixRatioBonusChecked cfg bugs_total bugs_fixed
      = some (fixRatioBonus cfg bugs_total bugs_fixed) := by
  unfold fixRatioBonusChecked fixRatioBonus
  by_cases h : cfg.fix_ratio_bonus_enabled ∧ 10 < bugs_total
  · rw [if_pos h, if_pos h]
    have hpos : 0 < bugs_total := by omega
    rw [if_pos hpos, if_pos hpos]
    have htc : ((bugs_total : ℚ)) ≠ 0 := by exact_mod_cast hpos.ne'
    rw [pyDivQ_eq htc]
    show (if _ then _ else _) = _
    by_cases h2 : cfg.fix_ratio_bonus_threshold < (bugs_fixed : ℚ) / (bugs_total : ℚ)
    · rw [if_pos h2, if_pos h2, pyDivQ_eq hthr]
    · rw [if_neg h2, if_neg h2]
      rfl
  · rw [if_neg h, if_neg h]
    rfl

theorem hotspot_penaltyChecked_eq (cfg : FormulaConfig) (fingerprints : Option Fingerprints) :
    hotspot_penaltyChecked cfg fingerprints = some (hotspot_penalty cfg fingerprints) := by
  cases fingerprints with
  | none => rfl
  | some fp =>
      unfold hotspot_penaltyChecked hotspot_penalty log1p
      dsimp only
      rw [pyLog1p_eq (by positivity)]
      rfl

theorem avg_recurrenceChecked_eq (fingerprints : Option Fingerprints) :
    avg_recurrenceChecked fingerprints = some (avg_recurrence_of fingerprints) := by
  cases fingerprints with
  | none => rfl
  | some fp =>
      unfold avg_recurrenceChecked avg_recurrence_of
      dsimp only
      by_cases h : 0 < fp.hotspots.length
      · rw [if_pos h, if_pos h, pyDivQ_eq (by exact_mod_cast h.ne')]
      · rw [if_neg h, if_neg h]
        rfl

theorem avg_recurrence_nonneg (fingerprints : Option Fingerprints)
    (h : ∀ f, fingerprints = some f → ∀ hsp ∈ f.hotspots, 0 ≤ hsp.bug_recurrence) :
    0 ≤ avg_recurrence_of fingerprints := by
  cases fingerprints with
  | none => exact le_refl 0
  | some fp =>
      unfold avg_recurrence_of
      dsimp only
      by_cases hl : 0 < fp.hotspots.length
      · rw [if_pos hl]
        apply div_nonneg
        · apply List.sum_nonneg
          intro x hx
          obtain ⟨hsp, hmem, hrfl⟩ := List.mem_map.mp hx
          exact hrfl ▸ h fp rfl hsp hmem
        · exact_mod_cast Nat.zero_le _
      · rw [if_neg hl]

theorem recurrence_penaltyChecked_eq (cfg : FormulaConfig) (fingerprints : Option Fingerprints)
    (h : ∀ f, fingerprints = some f → ∀ hsp ∈ f.hotspots, 0 ≤ hsp.bug_recurrence) :
    recurrence_penaltyChecked cfg fingerprints = some (recurrence_penalty cfg fingerprints) := by
  unfold recurrence_penaltyChecked recurrence_penalty log1p
  rw [avg_recurrenceChecked_eq]
  show (pyLog1p _).bind _ = _
  have havg : (0:ℝ) ≤ ((avg_recurrence_of fingerprints : ℚ) : ℝ) * 10 := by
    have h2 := avg_recurrence_nonneg fingerprints h
    have hc : (0:ℝ) ≤ ((avg_recurrence_of fingerprints : ℚ) : ℝ) := by exact_mod_cast h2
    linarith
  rw [pyLog1p_eq havg]
  rfl

/-!
## Claims
-/

/-- C1: For every well-typed input (aggregates, stats, fingerprints) and
any configuration, the `score` field returned by
`ConfidenceCalculator.calculate` lies in `[0, 100]` and is a multiple of
`1/10`, i.e. rounded to one decimal place. -/
theorem calculate_score_bounded_one_decimal (cfg : FormulaConfig) (aggregates : Aggregates)
    (statsOpt : Option Stats) (fingerprints : Option Fingerprints) :
    0 ≤ (calculate cfg aggregates statsOpt fingerprints).score ∧
    (calculate cfg aggregates statsOpt fingerprints).score ≤ 100 ∧
    ∃ n : ℤ, (calculate cfg aggregates statsOpt fingerprints).score = (n : ℝ) / 10 := by
  have hs : (calculate cfg aggregates statsOpt fingerprints).score
      = max 0 (min 100 (round1 (100 * Real.exp
        (-(total_penalty cfg aggregates (statsOpt.getD defaultStats) fingerprints)
          / (cfg.K : ℝ))))) := rfl
  rw [hs]
  set r := round1 (100 * Real.exp
    (-(total_penalty cfg aggregates (statsOpt.getD defaultStats) fingerprints)
      / (cfg.K : ℝ))) with hr
  refine ⟨le_max_left 0 _, max_le (by norm_num) (min_le_left _ _), ?_⟩
  refine ⟨max 0 (min 1000 (pyRound (100 * Real.exp
    (-(total_penalty cfg aggregates (statsOpt.getD defaultStats) fingerprints)
      / (cfg.K : ℝ)) * 10))), ?_⟩
  rw [hr]
  unfold round1
  push_cast [Int.cast_max, Int.cast_min]
  rw [← max_div_div_right (by norm_num : (0:ℝ) ≤ 10),
    ← min_div_div_right (by norm_num : (0:ℝ) ≤ 10)]
  norm_num

/-- C2: In the legacy `calculate_confidence`, the `can_ship` release gate
equals `p0_zero AND tier_a_mapped`, i.e. holds exactly when the open
critical count and the tier-A-unmapped count are both zero; whenever any
critical-tier bug is open, `can_ship` is false — independently of the
score, `score_ok` and `staleness_ok`, since the gate is a function of the
two counts alone. -/
theorem legacy_can_ship_gate (m : Legacy.Metrics) (previous_score : Option ℝ) :
    ((Legacy.calculate_confidence m previous_score).release_gates.can_ship ↔
      ((Legacy.calculate_confidence m previous_score).release_gates.p0_zero ∧
       (Legacy.calculate_confidence m previous_score).release_gates.tier_a_mapped)) ∧
    ((Legacy.calculate_confidence m previous_score).release_gates.can_ship ↔
      (m.sev_p0 = 0 ∧ m.tierA_unmapped = 0)) ∧
    (0 < m.sev_p0 → ¬ (Legacy.calculate_confidence m previous_score).release_gates.can_ship) := by
  refine ⟨Iff.rfl, Iff.rfl, ?_⟩
  intro hpos hcs
  have h0 : m.sev_p0 = 0 := hcs.1
  omega

/-- Witness for C2: with one open P0 bug the gate is closed. -/
theorem legacy_can_ship_gate_witness :
    ¬ (Legacy.calculate_confidence ⟨1, 0, 0, 0, 100, 0, 0, 0, 0, 0, 100, 100, 1⟩
        none).release_gates.can_ship :=
  (legacy_can_ship_gate ⟨1, 0, 0, 0, 100, 0, 0, 0, 0, 0, 100, 100, 1⟩ none).2.2 (by decide)

/-- C3: Under any configuration whose severity weights are non-negative
and whose saturation rates are positive, the severity penalty is
monotonically non-decreasing in each tier's open bug count (jointly, for
component-wise larger counts) and never exceeds `cap_severity`, however
large the counts grow. -/
theorem severity_penalty_monotone_capped (cfg : FormulaConfig)
    (hp0m : 0 ≤ cfg.p0_max) (hp1m : 0 ≤ cfg.p1_max)
    (hp2m : 0 ≤ cfg.p2_max) (hp3m : 0 ≤ cfg.p3_max)
    (hp0k : 0 < cfg.p0_k) (hp1k : 0 < cfg.p1_k)
    (hp2k : 0 < cfg.p2_k) (hp3k : 0 < cfg.p3_k)
    (sev sev' : SeverityCounts)
    (h0 : sev.critical.openCount ≤ sev'.critical.openCount)
    (h1 : sev.high.openCount ≤ sev'.high.openCount)
    (h2 : sev.medium.openCount ≤ sev'.medium.openCount)
    (h3 : sev.low.openCount ≤ sev'.low.openCount) :
    severity_penalty cfg sev ≤ severity_penalty cfg sev' ∧
    severity_penalty cfg sev ≤ (cfg.cap_severity : ℝ) := by
  constructor
  · unfold severity_penalty
    apply min_le_min _ le_rfl
    gcongr <;> [exact tierPenalty_mono hp0m hp0k h0; exact tierPenalty_mono hp1m hp1k h1;
      exact tierPenalty_mono hp2m hp2k h2; exact tierPenalty_mono hp3m hp3k h3]
  · exact min_le_right _ _

/-- Witness for C3 at the default configuration and concrete counts. -/
theorem severity_penalty_monotone_capped_witness :
    severity_penalty defaultConfig ⟨⟨0,0,0⟩,⟨1,0,0⟩,⟨1,0,0⟩,⟨0,0,0⟩⟩
      ≤ severity_penalty defaultConfig ⟨⟨2,0,0⟩,⟨1,0,0⟩,⟨3,0,0⟩,⟨5,0,0⟩⟩ ∧
    severity_penalty defaultConfig ⟨⟨0,0,0⟩,⟨1,0,0⟩,⟨1,0,0⟩,⟨0,0,0⟩⟩
      ≤ (defaultConfig.cap_severity : ℝ) :=
  severity_penalty_monotone_capped defaultConfig
    (by norm_num [defaultConfig]) (by norm_num [defaultConfig])
    (by norm_num [defaultConfig]) (by norm_num [defaultConfig])
    (by norm_num [defaultConfig]) (by norm_num [defaultConfig])
    (by norm_num [defaultConfig]) (by norm_num [defaultConfig])
    ⟨⟨0,0,0⟩,⟨1,0,0⟩,⟨1,0,0⟩,⟨0,0,0⟩⟩ ⟨⟨2,0,0⟩,⟨1,0,0⟩,⟨3,0,0⟩,⟨5,0,0⟩⟩
    (by decide) (by decide) (by decide) (by decide)

/-- C4: Whenever documentation coverage `mapped / max(scripts, 1)`
reaches `doc_target` — including inputs with `mapped > scripts` — the
doc-coverage penalty is exactly 0, both as computed and in the returned
breakdown (given a non-negative cap, as all configurations have). -/
theorem doc_penalty_zero_at_target (cfg : FormulaConfig) (aggregates : Aggregates)
    (stats : Stats) (fingerprints : Option Fingerprints)
    (hcap : 0 ≤ cfg.cap_doc)
    (hcov : cfg.doc_target ≤ doc_coverage stats.mapped stats.scripts) :
    (calculate cfg aggregates (some stats) fingerprints).penalty_breakdown.doc_coverage = 0 ∧
    doc_penalty cfg stats.mapped stats.scripts = 0 := by
  have hgap : doc_gap cfg stats.mapped stats.scripts = 0 := by
    unfold doc_gap
    exact max_eq_left (by linarith)
  have hp : doc_penalty cfg stats.mapped stats.scripts = 0 := by
    unfold doc_penalty
    rw [hgap]
    push_cast
    rw [Real.zero_rpow (by norm_num), mul_zero]
    exact min_eq_left (by exact_mod_cast hcap)
  have hproj : (calculate cfg aggregates (some stats) fingerprints).penalty_breakdown.doc_coverage
      = round1 (doc_penalty cfg stats.mapped stats.scripts) := rfl
  rw [hproj, hp, round1_zero]
  exact ⟨rfl, hp ▸ rfl⟩

/-- Witness for C4: default config, 200 mapped files out of 100 scripts
(excess mapping, coverage 2.0 ≥ 0.9) gives a zero doc penalty. -/
theorem doc_penalty_zero_at_target_witness :
    (calculate defaultConfig ⟨⟨⟨0,0,0⟩,⟨0,0,0⟩,⟨0,0,0⟩,⟨0,0,0⟩⟩, ⟨0,0⟩⟩
      (some ⟨200, 100, 0⟩) none).penalty_breakdown.doc_coverage = 0 ∧
    doc_penalty defaultConfig 200 100 = 0 :=
  doc_penalty_zero_at_target defaultConfig ⟨⟨⟨0,0,0⟩,⟨0,0,0⟩,⟨0,0,0⟩,⟨0,0,0⟩⟩, ⟨0,0⟩⟩
    ⟨200, 100, 0⟩ none (by norm_num [defaultConfig])
    (by norm_num [defaultConfig, doc_coverage])

/-- C5: Whenever the summary `total_found` is at most 10, the
`fix_ratio_bonus` entry of the returned penalty breakdown is exactly 0 —
for every configuration (bonus enabled or not) and every `total_fixed`,
including a 100% fix rate. -/
theorem fix_ratio_bonus_zero_small_sample (cfg : FormulaConfig) (aggregates : Aggregates)
    (statsOpt : Option Stats) (fingerprints : Option Fingerprints)
    (hsmall : aggregates.summary.total_found ≤ 10) :
    (calculate cfg aggregates statsOpt fingerprints).penalty_breakdown.fix_ratio_bonus = 0 ∧
    fixRatioBonus cfg aggregates.summary.total_found aggregates.summary.total_fixed = 0 := by
  have hb : fixRatioBonus cfg aggregates.summary.total_found aggregates.summary.total_fixed = 0 := by
    unfold fixRatioBonus
    rw [if_neg]
    rintro ⟨-, h10⟩
    omega
  have hproj : (calculate cfg aggregates statsOpt fingerprints).penalty_breakdown.fix_ratio_bonus
      = round1 ((fixRatioBonus cfg aggregates.summary.total_found
          aggregates.summary.total_fixed : ℚ) : ℝ) := rfl
  rw [hproj, hb]
  refine ⟨?_, rfl⟩
  norm_num [round1_zero]

/-- Witness for C5: bonus enabled (default config), 10 bugs found and all
10 fixed, yet the bonus is 0. -/
theorem fix_ratio_bonus_zero_small_sample_witness :
    (calculate defaultConfig ⟨⟨⟨0,0,0⟩,⟨0,0,0⟩,⟨0,0,0⟩,⟨0,0,0⟩⟩, ⟨10, 10⟩⟩
      none none).penalty_breakdown.fix_ratio_bonus = 0 ∧
    fixRatioBonus defaultConfig 10 10 = 0 :=
  fix_ratio_bonus_zero_small_sample defaultConfig
    ⟨⟨⟨0,0,0⟩,⟨0,0,0⟩,⟨0,0,0⟩,⟨0,0,0⟩⟩, ⟨10, 10⟩⟩ none none (by decide)

/-- C6: The temporal smoothing of the legacy calculator: with a supplied
previous score the final score is exactly `0.7·base + 0.3·previous`, it
lies between the two inputs inclusive, without a previous score it is the
base score, and the legacy result's `score` is the (integer-rounded)
smoothed value. -/
theorem ema_smooth_formula_and_bounds (base p : ℝ) :
    Legacy.emaSmooth base (some p) = 0.7 * base + 0.3 * p ∧
    min base p ≤ Legacy.emaSmooth base (some p) ∧
    Legacy.emaSmooth base (some p) ≤ max base p ∧
    Legacy.emaSmooth base none = base ∧
    ∀ m : Legacy.Metrics, (Legacy.calculate_confidence m (some p)).score =
      pyRound (Legacy.emaSmooth (Legacy.base_score m) (some p)) := by
  have hE : ((Legacy.EMA_WEIGHT : ℚ) : ℝ) = 0.7 := by
    norm_num [Legacy.EMA_WEIGHT]
  have heq : Legacy.emaSmooth base (some p) = 0.7 * base + 0.3 * p := by
    show (Legacy.EMA_WEIGHT : ℝ) * base + (1 - (Legacy.EMA_WEIGHT : ℝ)) * p
        = 0.7 * base + 0.3 * p
    rw [hE]
    ring
  refine ⟨heq, ?_, ?_, rfl, fun m => rfl⟩
  · rw [heq]
    rcases le_total base p with h | h
    · rw [min_eq_left h]; nlinarith
    · rw [min_eq_right h]; nlinarith
  · rw [heq]
    rcases le_total base p with h | h
    · rw [max_eq_right h]; nlinarith
    · rw [max_eq_left h]; nlinarith

set_option maxHeartbeats 1000000 in
/-- C7: Scenario 2 of the spec at the default configuration: all severity
counts zero, summary `{total_found: 0, total_fixed: 0}`, stats
`{mapped: 50, scripts: 100, tests_count: 0}`, no fingerprints.  The
returned breakdown has doc-coverage penalty 6.3, test-coverage penalty
1.6, bug-resolution penalty 0.6 (Bayesian-smoothed rate 60% vs the 70%
target), zero fix-ratio bonus, raw and final total penalty 8.5, and the
score is 84.3. -/
theorem calculate_default_scenario2 :
    (calculate defaultConfig ⟨⟨⟨0,0,0⟩,⟨0,0,0⟩,⟨0,0,0⟩,⟨0,0,0⟩⟩, ⟨0,0⟩⟩
      (some ⟨50, 100, 0⟩) none).penalty_breakdown.doc_coverage = 63/10 ∧
    (calculate defaultConfig ⟨⟨⟨0,0,0⟩,⟨0,0,0⟩,⟨0,0,0⟩,⟨0,0,0⟩⟩, ⟨0,0⟩⟩
      (some ⟨50, 100, 0⟩) none).penalty_breakdown.test_coverage = 8/5 ∧
    (calculate defaultConfig ⟨⟨⟨0,0,0⟩,⟨0,0,0⟩,⟨0,0,0⟩,⟨0,0,0⟩⟩, ⟨0,0⟩⟩
      (some ⟨50, 100, 0⟩) none).penalty_breakdown.bug_resolution = 3/5 ∧
    (calculate defaultConfig ⟨⟨⟨0,0,0⟩,⟨0,0,0⟩,⟨0,0,0⟩,⟨0,0,0⟩⟩, ⟨0,0⟩⟩
      (some ⟨50, 100, 0⟩) none).penalty_breakdown.fix_ratio_bonus = 0 ∧
    (calculate defaultConfig ⟨⟨⟨0,0,0⟩,⟨0,0,0⟩,⟨0,0,0⟩,⟨0,0,0⟩⟩, ⟨0,0⟩⟩
      (some ⟨50, 100, 0⟩) none).penalty_breakdown.raw_total = 17/2 ∧
    (calculate defaultConfig ⟨⟨⟨0,0,0⟩,⟨0,0,0⟩,⟨0,0,0⟩,⟨0,0,0⟩⟩, ⟨0,0⟩⟩
      (some ⟨50, 100, 0⟩) none).penalty_breakdown.total = 17/2 ∧
    (calculate defaultConfig ⟨⟨⟨0,0,0⟩,⟨0,0,0⟩,⟨0,0,0⟩,⟨0,0,0⟩⟩, ⟨0,0⟩⟩
      (some ⟨50, 100, 0⟩) none).inputs.fix_pct_bayes = 60 ∧
    (calculate defaultConfig ⟨⟨⟨0,0,0⟩,⟨0,0,0⟩,⟨0,0,0⟩,⟨0,0,0⟩⟩, ⟨0,0⟩⟩
      (some ⟨50, 100, 0⟩) none).score = 843/10 := by
  have hs1 := Real.sq_sqrt (by norm_num : (0:ℝ) ≤ 2/5)
  have hn1 := Real.sqrt_nonneg (2/5 : ℝ)
  have hs1_lo : (632455/1000000 : ℝ) ≤ Real.sqrt (2/5) := by nlinarith [hs1, hn1]
  have hs1_hi : Real.sqrt (2/5) ≤ (632456/1000000 : ℝ) := by nlinarith [hs1, hn1]
  have hs2 := Real.sq_sqrt (by norm_num : (0:ℝ) ≤ 3/10)
  have hn2 := Real.sqrt_nonneg (3/10 : ℝ)
  have hs2_lo : (547722/1000000 : ℝ) ≤ Real.sqrt (3/10) := by nlinarith [hs2, hn2]
  have hs2_hi : Real.sqrt (3/10) ≤ (547723/1000000 : ℝ) := by nlinarith [hs2, hn2]
  have hs3 := Real.sq_sqrt (by norm_num : (0:ℝ) ≤ 1/10)
  have hn3 := Real.sqrt_nonneg (1/10 : ℝ)
  have hs3_lo : (316227/1000000 : ℝ) ≤ Real.sqrt (1/10) := by nlinarith [hs3, hn3]
  have hs3_hi : Real.sqrt (1/10) ≤ (316228/1000000 : ℝ) := by nlinarith [hs3, hn3]
  have hsev : severity_penalty defaultConfig ⟨⟨0,0,0⟩,⟨0,0,0⟩,⟨0,0,0⟩,⟨0,0,0⟩⟩ = 0 := by
    unfold severity_penalty
    simp only [tierPenalty_zero]
    norm_num [defaultConfig]
  have hdoc : doc_penalty defaultConfig 50 100 = 10 * Real.sqrt (2/5) := by
    have hgap : doc_gap defaultConfig 50 100 = 2/5 := by
      norm_num [doc_gap, doc_coverage, defaultConfig]
    unfold doc_penalty
    rw [hgap, show (((2:ℚ)/5 : ℚ) : ℝ) = (2/5 : ℝ) by norm_num,
      rpow_three_halves (by norm_num),
      show ((defaultConfig.cap_doc : ℚ) : ℝ) = 10 by norm_num [defaultConfig],
      min_eq_left (by nlinarith [hs1_hi, hn1])]
    ring
  have htest : test_penalty defaultConfig 0 100 = 3 * Real.sqrt (3/10) := by
    have hgap : test_gap defaultConfig 0 100 = 3/10 := by
      norm_num [test_gap, test_pct, defaultConfig]
    unfold test_penalty
    rw [hgap, show (((3:ℚ)/10 : ℚ) : ℝ) = (3/10 : ℝ) by norm_num,
      rpow_three_halves (by norm_num),
      show ((defaultConfig.cap_test : ℚ) : ℝ) = 3 by norm_num [defaultConfig],
      min_eq_left (by nlinarith [hs2_hi, hn2])]
    ring
  have hres : resolve_penalty defaultConfig 0 0 = 9/5 * Real.sqrt (1/10) := by
    have hgap : fix_gap defaultConfig 0 0 = 1/10 := by
      norm_num [fix_gap, fix_pct_bayes, defaultConfig]
    unfold resolve_penalty
    rw [hgap, show (((1:ℚ)/10 : ℚ) : ℝ) = (1/10 : ℝ) by norm_num,
      rpow_three_halves (by norm_num),
      show ((defaultConfig.cap_resolution : ℚ) : ℝ) = 6 by norm_num [defaultConfig],
      min_eq_left (by nlinarith [hs3_hi, hn3])]
    ring
  have hstale : staleness_penalty defaultConfig = 0 := by
    unfold staleness_penalty stale_count
    norm_num [defaultConfig]
  have htA : tier_a_penalty defaultConfig = 0 := by
    unfold tier_a_penalty tier_a_unmapped
    norm_num [defaultConfig]
  have hhot : hotspot_penalty defaultConfig none = 0 := rfl
  have hrec : recurrence_penalty defaultConfig none = 0 := by
    unfold recurrence_penalty avg_recurrence_of log1p
    norm_num [Real.log_one, defaultConfig]
  have hbonus : fixRatioBonus defaultConfig 0 0 = 0 := by
    unfold fixRatioBonus
    norm_num [defaultConfig]
  have hraw : raw_penalty defaultConfig ⟨⟨⟨0,0,0⟩,⟨0,0,0⟩,⟨0,0,0⟩,⟨0,0,0⟩⟩, ⟨0,0⟩⟩ ⟨50, 100, 0⟩ none
      = 10 * Real.sqrt (2/5) + 3 * Real.sqrt (3/10) + 9/5 * Real.sqrt (1/10) := by
    unfold raw_penalty persistence_penalty
    dsimp only
    rw [hsev, hdoc, htest, hres, hstale, htA, hhot, hrec]
    ring
  have htot : total_penalty defaultConfig ⟨⟨⟨0,0,0⟩,⟨0,0,0⟩,⟨0,0,0⟩,⟨0,0,0⟩⟩, ⟨0,0⟩⟩ ⟨50, 100, 0⟩ none
      = 10 * Real.sqrt (2/5) + 3 * Real.sqrt (3/10) + 9/5 * Real.sqrt (1/10) := by
    unfold total_penalty
    dsimp only
    rw [hraw, hbonus]
    push_cast
    rw [sub_zero]
    exact max_eq_right (by positivity)
  refine ⟨?_, ?_, ?_, ?_, ?_, ?_, ?_, ?_⟩
  · show round1 (doc_penalty defaultConfig 50 100) = 63/10
    rw [hdoc, round1_eq 63 (by push_cast; nlinarith [hs1_lo]) (by push_cast; nlinarith [hs1_hi])]
    norm_num
  · show round1 (test_penalty defaultConfig 0 100) = 8/5
    rw [htest, round1_eq 16 (by push_cast; nlinarith [hs2_lo]) (by push_cast; nlinarith [hs2_hi])]
    norm_num
  · show round1 (resolve_penalty defaultConfig 0 0) = 3/5
    rw [hres, round1_eq 6 (by push_cast; nlinarith [hs3_lo]) (by push_cast; nlinarith [hs3_hi])]
    norm_num
  · show round1 ((fixRatioBonus defaultConfig 0 0 : ℚ) : ℝ) = 0
    rw [hbonus]
    norm_num [round1_zero]
  · show round1 (raw_penalty defaultConfig ⟨⟨⟨0,0,0⟩,⟨0,0,0⟩,⟨0,0,0⟩,⟨0,0,0⟩⟩, ⟨0,0⟩⟩
      ⟨50, 100, 0⟩ none) = 17/2
    rw [hraw, round1_eq 85 (by push_cast; nlinarith [hs1_lo, hs2_lo, hs3_lo])
      (by push_cast; nlinarith [hs1_hi, hs2_hi, hs3_hi])]
    norm_num
  · show round1 (total_penalty defaultConfig ⟨⟨⟨0,0,0⟩,⟨0,0,0⟩,⟨0,0,0⟩,⟨0,0,0⟩⟩, ⟨0,0⟩⟩
      ⟨50, 100, 0⟩ none) = 17/2
    rw [htot, round1_eq 85 (by push_cast; nlinarith [hs1_lo, hs2_lo, hs3_lo])
      (by push_cast; nlinarith [hs1_hi, hs2_hi, hs3_hi])]
    norm_num
  · show qround1 (fix_pct_bayes defaultConfig 0 0 * 100) = 60
    norm_num [qround1, pyRoundQ, fix_pct_bayes, defaultConfig]
  · show max 0 (min 100 (round1 (100 * Real.exp
        (-(total_penalty defaultConfig ⟨⟨⟨0,0,0⟩,⟨0,0,0⟩,⟨0,0,0⟩,⟨0,0,0⟩⟩, ⟨0,0⟩⟩
            ⟨50, 100, 0⟩ none)
          / ((defaultConfig.K : ℚ) : ℝ))))) = 843/10
    rw [htot, show ((defaultConfig.K : ℚ) : ℝ) = 50 by norm_num [defaultConfig]]
    have hexpA := (exp_neg_taylor_bounds (17073879/100000000) (by norm_num) (by norm_num)).1
    have hexpB := (exp_neg_taylor_bounds (17073849/100000000) (by norm_num) (by norm_num)).2
    have hlo2 : (0.84295 : ℝ) ≤ Real.exp (-(17073879/100000000)) := by
      refine le_trans ?_ hexpA
      norm_num
    have hhi2 : Real.exp (-(17073849/100000000)) ≤ (0.84306 : ℝ) := by
      refine le_trans hexpB ?_
      norm_num
    set T := 10 * Real.sqrt (2/5) + 3 * Real.sqrt (3/10) + 9/5 * Real.sqrt (1/10) with hT
    have hmono_lo : Real.exp (-(17073879/100000000)) ≤ Real.exp (-T/50) := by
      apply Real.exp_le_exp.mpr
      rw [hT]
      nlinarith [hs1_hi, hs2_hi, hs3_hi]
    have hmono_hi : Real.exp (-T/50) ≤ Real.exp (-(17073849/100000000)) := by
      apply Real.exp_le_exp.mpr
      rw [hT]
      nlinarith [hs1_lo, hs2_lo, hs3_lo]
    have h843 : round1 (100 * Real.exp (-T/50)) = ((843 : ℤ) : ℝ) / 10 := by
      apply round1_eq
      · push_cast
        nlinarith [hlo2, hmono_lo]
      · push_cast
        nlinarith [hhi2, hmono_hi]
    rw [h843, show ((843 : ℤ) : ℝ)/10 = 84.3 by norm_num,
      min_eq_right (by norm_num), max_eq_right (by norm_num)]
    norm_num

/-- C8: A configuration document whose text cannot be parsed (malformed
JSON) never raises out of `_load_config`: the parse failure is caught, a
warning is printed, and the resulting configuration is exactly the
built-in defaults — no field is partially overridden. -/
theorem loadConfig_malformed_keeps_defaults (msg : String) :
    loadConfig defaultConfig (Except.error msg) = defaultConfig := rfl

/-- Counterexample for C9: a well-formed document that sets the threshold
using the spec's field name `doc_target` is ignored by the loader — the
source reads the key `doc_coverage_target`, so `doc_target` keeps its
default 0.9 instead of the supplied 0.5. -/
theorem loadConfig_spec_key_names_counterexample :
    (loadConfig defaultConfig (Except.ok docTargetDoc)).doc_target = 9/10 ∧
    ((9:ℚ)/10) ≠ 1/2 :=
  ⟨rfl, by norm_num⟩

set_option maxHeartbeats 1000000 in
/-- C9 (amended): For every well-formed configuration document under the
top-level key `confidence_formula`, loading merges per-field: every named
field present in a section overrides the corresponding default and fields
absent in a present section keep their defaults — with the document field
names the source reads, in particular `doc_coverage_target`,
`fix_rate_target` and `test_coverage_target` for the targets (not
`doc_target`/`fix_target`/`test_target`). -/
theorem loadConfig_merges_per_field (cfg : FormulaConfig) (d : ConfigDoc) :
    loadConfig cfg (Except.ok (jsonOfConfigDoc d)) = specMerge cfg d := by
  obtain ⟨K0, w0, c0, t0, p0, b0, i0⟩ := d
  cases w0 <;> cases c0 <;> cases t0 <;> cases p0 <;> cases b0 <;>
    simp only [loadConfig, applyConfigDoc, jsonOfConfigDoc, applyFormula, JVal.getD,
      Option.getD_some, Option.getD_none, Option.map_some', Option.map_none',
      weightsStage, capsStage, thresholdsStage, priorsStage, bonusStage,
      jsonOfWeights, jsonOfCaps, jsonOfThresholds, jsonOfPriors, jsonOfBonus,
      emptyObj, specMerge, numD_map_num, boolD_map_bool,
      String.reduceEq, reduceIte, ite_true, ite_false] <;> rfl

/-- C10: `ConfidenceCalculator.calculate` with the default configuration
is total over well-typed inputs: for every aggregates/stats/fingerprints
input whose hotspot recurrences are non-negative — including zero totals,
`scripts = 0`, and an empty or absent hotspot list — the fully guarded
checked evaluation succeeds and agrees with the unchecked result; no
division, logarithm or power step can raise. -/
theorem calculate_never_raises (aggregates : Aggregates) (statsOpt : Option Stats)
    (fingerprints : Option Fingerprints)
    (h : ∀ f, fingerprints = some f → ∀ hsp ∈ f.hotspots, 0 ≤ hsp.bug_recurrence) :
    calculateChecked defaultConfig aggregates statsOpt fingerprints
      = some (calculate defaultConfig aggregates statsOpt fingerprints) := by
  unfold calculateChecked
  rw [tierPenaltyChecked_eq _ (by norm_num [defaultConfig]),
    tierPenaltyChecked_eq _ (by norm_num [defaultConfig]),
    tierPenaltyChecked_eq _ (by norm_num [defaultConfig]),
    tierPenaltyChecked_eq _ (by norm_num [defaultConfig]),
    doc_coverageChecked_eq, doc_penaltyChecked_eq, test_penaltyChecked_eq,
    fix_pct_bayesChecked_eq, resolve_penaltyChecked_eq,
    hotspot_penaltyChecked_eq, avg_recurrenceChecked_eq,
    recurrence_penaltyChecked_eq _ _ h]
  have hthr : (1 : ℚ) - defaultConfig.fix_ratio_bonus_threshold ≠ 0 := by
    norm_num [defaultConfig]
  have hK : ((defaultConfig.K : ℚ) : ℝ) ≠ 0 := by norm_num [defaultConfig]
  rw [fixRatioBonusChecked_eq _ _ _ hthr]
  simp only [pyDiv_eq hK]
  rfl

/-- Witness for C10: the all-zero input (zero totals, `scripts = 0`,
absent fingerprints) evaluates without raising. -/
theorem calculate_never_raises_witness :
    calculateChecked defaultConfig ⟨⟨⟨0,0,0⟩,⟨0,0,0⟩,⟨0,0,0⟩,⟨0,0,0⟩⟩, ⟨0,0⟩⟩
        (some ⟨0, 0, 0⟩) none
      = some (calculate defaultConfig ⟨⟨⟨0,0,0⟩,⟨0,0,0⟩,⟨0,0,0⟩,⟨0,0,0⟩⟩, ⟨0,0⟩⟩
        (some ⟨0, 0, 0⟩) none) :=
  calculate_never_raises ⟨⟨⟨0,0,0⟩,⟨0,0,0⟩,⟨0,0,0⟩,⟨0,0,0⟩⟩, ⟨0,0⟩⟩ (some ⟨0, 0, 0⟩) none
    (fun _ hf => nomatch hf)
